import Mathlib

/-!
Verification development for the story_tool_evaluator repository.

The repository contains two variants of the same evaluator:
a narrow variant (`evaluation.py`, scores on a 1.0 to 10.0 scale, results carry
an explanation) and a wide variant (`src/evaluation.py`, scores on a 0.0 to 20.0
scale, results carry only a score).  Both are embedded below, in the namespaces
`Narrow` and `Wide`.

Modelling conventions:
- Python floats are modelled as rationals.  Non-finite floats (nan, inf) are
  outside the model; the scores handled by the program are finite decimals.
- `json.loads` is a Python standard-library function, external to the
  repository, so it is modelled as an oracle parameter
  `loads : String -> Option PyJson`: `loads s = some v` means `json.loads(s)`
  returns the value modelled by `v`, and `loads s = none` means it raises
  `json.JSONDecodeError`.  Universally quantified theorems therefore cover
  every possible behaviour of the real parser; concrete instantiations use
  oracles whose answers agree with `json.loads` on the strings involved.
- The transport client (`clients.py`, also external to the parsing core) is
  modelled by the sequence of response texts it returns:
  `responses : Nat -> String` gives the text of the k-th chat call issued by
  the operation, counting from 0.
- Python exceptions that the code does not catch are modelled with `Except`:
  a result `.error e` means the Python code raises the corresponding exception.
- Python `str` operations are modelled on `List Char` (Python strings are
  sequences of code points).  `str.strip`, `\d` in regular expressions and
  `str.lower` are modelled on their ASCII behaviour, which covers the
  category vocabulary and all score syntax handled by the program.
- Python dicts (as produced by `json.loads`, hence with unique keys) are
  modelled as association lists in insertion order; lookup takes the first
  binding.
-/

/-- Python exception kinds that the embedded code can raise. -/
inductive PyErr where
  | typeError
  | valueError
  | attributeError
  | keyError
deriving DecidableEq

/-- Values produced by `json.loads`: JSON null, booleans, numbers, strings,
arrays and objects.  Numbers are modelled as rationals (see the header). -/
inductive PyJson where
  | null
  | bool (b : Bool)
  | num (q : ℚ)
  | str (s : String)
  | arr (xs : List PyJson)
  | obj (kvs : List (String × PyJson))

/-- ASCII decimal digit test, modelling the regex class backslash-d. -/
def isDigitChar (c : Char) : Bool := 48 ≤ c.toNat && c.toNat ≤ 57

/-- ASCII whitespace test, modelling the characters removed by `str.strip`. -/
def isSpaceChar (c : Char) : Bool :=
  c == ' ' || c == '\t' || c == '\n' || c == '\r' || c == '\x0b' || c == '\x0c'

/-- Model of Python `str.strip()` (remove leading and trailing whitespace). -/
def pystrip (s : String) : String :=
  String.mk (((s.data.dropWhile isSpaceChar).reverse.dropWhile isSpaceChar).reverse)

/-- Check whether `pat` is a prefix of `l` (used to model slicing and `str.startswith`). -/
def prefixCheck : List Char → List Char → Bool
  | [], _ => true
  | _ :: _, [] => false
  | a :: as, b :: bs => a == b && prefixCheck as bs

/-- Check whether `pat` occurs as a contiguous subsequence of `l`
(models the Python `in` operator on strings). -/
def containsSeq (pat : List Char) : List Char → Bool
  | [] => pat.isEmpty
  | c :: cs => prefixCheck pat (c :: cs) || containsSeq pat cs

/-- Model of Python `s.replace(pat, "", 1)`: remove the first occurrence of
`pat` (the program only ever replaces with the empty string). -/
def removeFirstList (pat : List Char) : List Char → List Char
  | [] => []
  | c :: cs =>
    if pat ≠ [] && prefixCheck pat (c :: cs) then (c :: cs).drop pat.length
    else c :: removeFirstList pat cs

/-- Fuel-driven worker for `removeAll` (fuel bounds the number of positions
examined, which the input length always covers). -/
def removeAllAux (pat : List Char) : Nat → List Char → List Char
  | 0, l => l
  | _ + 1, [] => []
  | n + 1, c :: cs =>
    if pat ≠ [] && prefixCheck pat (c :: cs) then removeAllAux pat n ((c :: cs).drop pat.length)
    else c :: removeAllAux pat n cs

/-- Model of Python `s.replace(pat, "")`: remove every occurrence of `pat`. -/
def removeAll (s pat : String) : String :=
  String.mk (removeAllAux pat.data s.data.length s.data)

/-- Model of Python `str.lower()` (ASCII case folding, see the header). -/
def pyLower (s : String) : String := String.mk (s.data.map Char.toLower)

/-- Numeric value of a list of ASCII digits. -/
def digitsToNat (l : List Char) : ℕ := l.foldl (fun a c => 10 * a + (c.toNat - 48)) 0

/-- Model of Python `float(s)` on string arguments: an optional sign followed
by a decimal literal.  (Exponents and the inf/nan spellings accepted by CPython
are outside the model; no theorem below exercises them.)  Returns `none` where
CPython raises `ValueError`. -/
def parseFloatLit (s : String) : Option ℚ :=
  let cs := (pystrip s).data
  let signed : ℚ × List Char :=
    match cs with
    | '-' :: t => (-1, t)
    | '+' :: t => (1, t)
    | _ => (1, cs)
  let sign := signed.1
  let body := signed.2
  let ip := body.takeWhile isDigitChar
  let rest := body.dropWhile isDigitChar
  match rest with
  | [] => if ip.isEmpty then none else some (sign * (digitsToNat ip : ℚ))
  | '.' :: frac =>
    let fp := frac.takeWhile isDigitChar
    let rest2 := frac.dropWhile isDigitChar
    if rest2.isEmpty = false then none
    else if ip.isEmpty && fp.isEmpty then none
    else some (sign * ((digitsToNat ip : ℚ) + (digitsToNat fp : ℚ) / (10 ^ fp.length)))
  | _ => none

/-- Lookup in an association list modelling a Python dict. -/
def dictGet {α : Type} (kvs : List (String × α)) (k : String) : Option α :=
  (kvs.find? (fun p => p.1 == k)).map (fun p => p.2)

/-- Model of the Python `in` operator with a string on the left: key test on
dicts, membership on lists, substring test on strings, `TypeError` otherwise. -/
def pyIn (k : String) : PyJson → Except PyErr Bool
  | .obj kvs => .ok (kvs.any (fun p => p.1 == k))
  | .arr xs => .ok (xs.any (fun v => match v with | .str s => s == k | _ => false))
  | .str s => .ok (containsSeq k.data s.data)
  | _ => .error .typeError

/-- Model of Python `payload.get(k, d)`: dict lookup with default, raising
`AttributeError` when the receiver is not a dict. -/
def pyGet (p : PyJson) (k : String) (d : PyJson) : Except PyErr PyJson :=
  match p with
  | .obj kvs => .ok ((dictGet kvs k).getD d)
  | _ => .error .attributeError

/-- Model of Python subscription `p[k]` with a string key. -/
def pySubscript (p : PyJson) (k : String) : Except PyErr PyJson :=
  match p with
  | .obj kvs =>
    match dictGet kvs k with
    | some v => .ok v
    | none => .error .keyError
  | _ => .error .typeError

/-- Model of Python `p.items()`: raises `AttributeError` unless `p` is a dict. -/
def pyItems : PyJson → Except PyErr (List (String × PyJson))
  | .obj kvs => .ok kvs
  | _ => .error .attributeError

/-- Model of Python iteration `for x in p`: elements of a list, code points of
a string, keys of a dict; `TypeError` on non-iterables. -/
def pyIterate : PyJson → Except PyErr (List PyJson)
  | .arr xs => .ok xs
  | .str s => .ok (s.data.map (fun c => PyJson.str (String.mk [c])))
  | .obj kvs => .ok (kvs.map (fun p => PyJson.str p.1))
  | _ => .error .typeError

/-- Model of Python `float(v)` on `json.loads` values: numbers pass through,
booleans coerce to 0 or 1, numeric strings are parsed, `None`, lists and dicts
raise `TypeError`, non-numeric strings raise `ValueError`. -/
def pyFloat : PyJson → Except PyErr ℚ
  | .num q => .ok q
  | .bool b => .ok (if b then 1 else 0)
  | .str s =>
    match parseFloatLit s with
    | some q => .ok q
    | none => .error .valueError
  | _ => .error .typeError

/-- Decimal-style rendering of a rational, approximating Python `str` on
numbers; only the branches for strings, `None` and booleans of `pyStr` are
exercised by the theorems below. -/
def numRepr (q : ℚ) : String :=
  toString q.num ++ (if q.den = 1 then "" else "/" ++ toString q.den)

/-- Model of Python `str(v)` on `json.loads` values.  The rendering of
containers and numbers is approximated (no theorem below exercises it). -/
def pyStr : PyJson → String
  | .str s => s
  | .null => "None"
  | .bool b => if b then "True" else "False"
  | .num q => numRepr q
  | .arr _ => "[...]"
  | .obj _ => "\x7b...\x7d"

/-- Round a rational to the nearest integer, ties to even, modelling the
rounding mode of Python `round`. -/
def roundHalfEven (q : ℚ) : ℤ :=
  let f := ⌊q⌋
  let r := q - f
  if r < 1 / 2 then f
  else if 1 / 2 < r then f + 1
  else if f % 2 = 0 then f else f + 1

/-- Model of Python `round(x, 1)` (on exact rationals, see the header). -/
def round1 (q : ℚ) : ℚ := (roundHalfEven (q * 10) : ℚ) / 10

/-- Lookahead test of the patterns: the next character must not be a digit. -/
def noDigitAhead : List Char → Bool
  | [] => true
  | c :: _ => !(isDigitChar c)

/-- Generic `re.search` loop: try the match function at every position from
left to right, skipping positions whose preceding character is a digit (the
lookbehind of both patterns).  `acc` holds the consumed prefix in reverse;
`prevD` records whether the previous character is a digit.  Returns
(text before the match, matched text, text after the match). -/
def searchAux (tm : List Char → Option (List Char × List Char)) :
    Bool → List Char → List Char → Option (List Char × List Char × List Char)
  | _, _, [] => none
  | prevD, acc, c :: cs =>
    if prevD then searchAux tm (isDigitChar c) (c :: acc) cs
    else
      match tm (c :: cs) with
      | some (m, rest) => some (acc.reverse, m, rest)
      | none => searchAux tm (isDigitChar c) (c :: acc) cs

/-- Run a pattern (given by its position matcher `tm`) over a string, as
`re.search` does. -/
def regexSearch (tm : List Char → Option (List Char × List Char)) (s : String) :
    Option (List Char × List Char × List Char) :=
  searchAux tm false [] s.data

/-- Model of Python `float` on the texts matched by the two score patterns:
one or two integer digits, optionally followed by a dot and one fractional
digit (in the three and four character shapes the second-to-last character is
always the dot). -/
def ratOfMatch : List Char → ℚ
  | [a] => ((a.toNat - 48 : ℕ) : ℚ)
  | [a, b] => ((10 * (a.toNat - 48) + (b.toNat - 48) : ℕ) : ℚ)
  | [a, _, d] => mkRat (10 * (a.toNat - 48) + (d.toNat - 48) : ℕ) 10
  | [a, b, _, d] => mkRat (100 * (a.toNat - 48) + 10 * (b.toNat - 48) + (d.toNat - 48) : ℕ) 10
  | _ => 0

/-- First alternative of the narrow pattern: `10\.\d` with the lookahead. -/
def altN1 : List Char → Option (List Char × List Char)
  | '1' :: '0' :: '.' :: d :: rest =>
    if isDigitChar d && noDigitAhead rest then some (['1', '0', '.', d], rest) else none
  | _ => none

/-- Second alternative of the narrow pattern: `10` with the lookahead. -/
def altN2 : List Char → Option (List Char × List Char)
  | '1' :: '0' :: rest => if noDigitAhead rest then some (['1', '0'], rest) else none
  | _ => none

/-- Third alternative of the narrow pattern: `[1-9]\.\d` with the lookahead. -/
def altN3 : List Char → Option (List Char × List Char)
  | a :: '.' :: d :: rest =>
    if (49 ≤ a.toNat && a.toNat ≤ 57) && isDigitChar d && noDigitAhead rest then
      some ([a, '.', d], rest)
    else none
  | _ => none

/-- Fourth alternative of the narrow pattern: `[1-9]` with the lookahead. -/
def altN4 : List Char → Option (List Char × List Char)
  | a :: rest =>
    if (49 ≤ a.toNat && a.toNat ≤ 57) && noDigitAhead rest then some ([a], rest) else none
  | _ => none

/-- Position matcher for the narrow pattern
`(?<!\d)(10\.\d|10|[1-9]\.\d|[1-9])(?!\d)` of `evaluation.py`.
The four alternatives are tried in order, as the regex engine does, each
combined with the trailing lookahead; backtracking from a failed lookahead
falls through to the next alternative.  Returns the matched text and the rest
of the input. -/
def tryMatchN (cs : List Char) : Option (List Char × List Char) :=
  (altN1 cs).orElse fun _ => (altN2 cs).orElse fun _ => (altN3 cs).orElse fun _ => altN4 cs

/-- Optional greedy fractional part `(\.\d)?` followed by the lookahead, used
by the wide pattern: try the fractional part first; when it is absent or its
lookahead fails, fall back to the integer part alone (whose lookahead then
sees either a non-digit or the dot itself). -/
def withOptDec (intPart rest : List Char) : Option (List Char × List Char) :=
  match rest with
  | '.' :: d :: rest2 =>
    if isDigitChar d && noDigitAhead rest2 then some (intPart ++ ['.', d], rest2)
    else some (intPart, rest)
  | _ => if noDigitAhead rest then some (intPart, rest) else none

/-- First alternative of the wide pattern: `20(\.\d)?` with the lookahead. -/
def altW1 : List Char → Option (List Char × List Char)
  | '2' :: '0' :: rest => withOptDec ['2', '0'] rest
  | _ => none

/-- Second alternative of the wide pattern: `1[0-9](\.\d)?` with the lookahead. -/
def altW2 : List Char → Option (List Char × List Char)
  | '1' :: d :: rest => if isDigitChar d then withOptDec ['1', d] rest else none
  | _ => none

/-- Third alternative of the wide pattern: `[0-9](\.\d)?` with the lookahead. -/
def altW3 : List Char → Option (List Char × List Char)
  | a :: rest => if isDigitChar a then withOptDec [a] rest else none
  | _ => none

/-- Position matcher for the wide pattern
`(?<!\d)(20(\.\d)?|1[0-9](\.\d)?|[0-9](\.\d)?)(?!\d)` of `src/evaluation.py`. -/
def tryMatchW (cs : List Char) : Option (List Char × List Char) :=
  (altW1 cs).orElse fun _ => (altW2 cs).orElse fun _ => altW3 cs

namespace Narrow

/-- Category list of `evaluation.py` (the apostrophe in one name is written
with the escape x27). -/
def STORY_EVALUATION_CATEGORIES : List String := [
  "Grammar, spelling, and punctuation quality",
  "Sentence pattern variety",
  "Avoidance of clichés and overused phrases",
  "Clarity and understandability",
  "Logical connection between events and ideas",
  "Internal consistency within the story\x27s context",
  "Scene construction and purpose",
  "Avoidance of predictable narrative tropes",
  "Ability to hold reader interest",
  "Character consistency",
  "Character motivation and actions making sense",
  "Natural dialogue",
  "Character depth and dimensionality",
  "Realistic character interactions"]

/-- Evaluation result of `evaluation.py`: category, score, explanation. -/
structure EvaluationResult where
  category : String
  score : ℚ
  explanation : String

/-- Score extraction of `parse_response` in `evaluation.py`:
`score = float(payload.get("score")) if "score" in payload else None`,
with each step raising as the corresponding Python expression does. -/
def scoreFromPayload (payload : PyJson) : Except PyErr (Option ℚ) :=
  match pyIn "score" payload with
  | .error e => .error e
  | .ok true =>
    match pyGet payload "score" PyJson.null with
    | .error e => .error e
    | .ok v =>
      match pyFloat v with
      | .error e => .error e
      | .ok q => .ok (some q)
  | .ok false => .ok none

/-- Model of `parse_response` in `evaluation.py`.  `loads` is the
`json.loads` oracle (see the file header); it is consulted on the stripped
response, exactly as the code calls `json.loads` after `response.strip()`.
Only `json.JSONDecodeError` (`loads _ = none`) falls through to the regex
fallback; any other exception propagates as `.error`. -/
def parse_response (loads : String → Option PyJson) (response : String) :
    Except PyErr (Option ℚ × String) :=
  let r := pystrip response
  if r = "" then .ok (none, "")
  else
    match loads r with
    | some payload =>
      match scoreFromPayload payload with
      | .error e => .error e
      | .ok score =>
        match pyGet payload "explanation" (PyJson.str "") with
        | .error e => .error e
        | .ok ev => .ok (score, pystrip (pyStr ev))
    | none =>
      match regexSearch tryMatchN r with
      | some (_, m, _) =>
        .ok (some (ratOfMatch m), pystrip (String.mk (removeFirstList m r.data)))
      | none => .ok (none, r)

/-- Worker for the category loop of `evaluate_all_categories` in
`evaluation.py`: one chat call per category starting at call index `i`, with
`score = 0.0` when parsing yields no score (`if score is None: score = 0.0`). -/
def evalCats (loads : String → Option PyJson) (responses : Nat → String) :
    List String → Nat → Except PyErr (List (String × EvaluationResult))
  | [], _ => .ok []
  | c :: cs, i =>
    match parse_response loads (responses i) with
    | .error e => .error e
    | .ok (s, expl) =>
      match evalCats loads responses cs (i + 1) with
      | .error e => .error e
      | .ok rest => .ok ((c, ⟨c, s.getD 0, expl⟩) :: rest)

/-- Model of `StoryEvaluator.evaluate_all_categories` in `evaluation.py`:
one chat call per category (indices 0..13), then a final creativity call
(index 14) whose result is stored under the key "Creativity". -/
def evaluate_all_categories (loads : String → Option PyJson) (responses : Nat → String) :
    Except PyErr (List (String × EvaluationResult)) :=
  match evalCats loads responses STORY_EVALUATION_CATEGORIES 0 with
  | .error e => .error e
  | .ok results =>
    match parse_response loads (responses STORY_EVALUATION_CATEGORIES.length) with
    | .error e => .error e
    | .ok (cs, cexpl) =>
      .ok (results ++ [("Creativity", ⟨"Creativity", cs.getD 0, cexpl⟩)])

/-- Filter of `analyze_creativity_difference` in `evaluation.py`:
`[cat for cat in influential_categories if cat in STORY_EVALUATION_CATEGORIES]`.
Every kept element equals one of the category strings, so the result is
represented as the list of those strings. -/
def validCategoriesOf (items : List PyJson) : List String :=
  items.filterMap fun v =>
    match v with
    | .str s => if STORY_EVALUATION_CATEGORIES.contains s then some s else none
    | _ => none

/-- Model of the dict comprehension
`{cat: impact[cat] for cat in valid_categories if cat in impact}` of
`evaluation.py`, with the Python `in` and subscription semantics (which can
raise on non-dict `impact`). -/
def buildImpact (impact : PyJson) : List String → Except PyErr (List (String × PyJson))
  | [] => .ok []
  | c :: cs =>
    match pyIn c impact with
    | .error e => .error e
    | .ok true =>
      match pySubscript impact c with
      | .error e => .error e
      | .ok v =>
        match buildImpact impact cs with
        | .error e => .error e
        | .ok rest => .ok ((c, v) :: rest)
    | .ok false => buildImpact impact cs

/-- Model of `StoryEvaluator.analyze_creativity_difference` in
`evaluation.py`.  `analysis_response` is the text the client returns for the
single analysis call; the second component of the result counts the chat
calls issued (0 on the early return, 1 otherwise).  The returned dict is
modelled as an association list with the keys of the corresponding Python
dict literal. -/
def analyze_creativity_difference (loads : String → Option PyJson)
    (analysis_response : String) (standalone_creativity : EvaluationResult)
    (all_categories_results : List (String × EvaluationResult)) :
    Except PyErr (List (String × PyJson) × Nat) :=
  let standalone_score := standalone_creativity.score
  let contextual_score :=
    ((dictGet all_categories_results "Creativity").getD standalone_creativity).score
  if |standalone_score - contextual_score| < 1 / 10 then
    .ok ([("standalone_creativity_score", PyJson.num standalone_score),
          ("contextual_creativity_score", PyJson.num contextual_score),
          ("difference", PyJson.num 0),
          ("analysis", PyJson.str "The creativity scores are essentially the same. No significant difference to analyze."),
          ("influential_categories", PyJson.arr [])], 0)
  else
    match loads analysis_response with
    | some analysis_data =>
      match pyGet analysis_data "influential_categories" (PyJson.arr []) with
      | .error e => .error e
      | .ok infl =>
        match pyIterate infl with
        | .error e => .error e
        | .ok items =>
          let valid_categories := validCategoriesOf items
          match pyGet analysis_data "impact" (PyJson.obj []) with
          | .error e => .error e
          | .ok impact =>
            match buildImpact impact valid_categories with
            | .error e => .error e
            | .ok valid_impact =>
              match pyGet analysis_data "analysis" (PyJson.str "") with
              | .error e => .error e
              | .ok analysisV =>
                .ok ([("standalone_creativity_score", PyJson.num standalone_score),
                      ("contextual_creativity_score", PyJson.num contextual_score),
                      ("difference", PyJson.num (round1 |standalone_score - contextual_score|)),
                      ("analysis", analysisV),
                      ("influential_categories",
                        PyJson.arr (valid_categories.map PyJson.str)),
                      ("impact", PyJson.obj valid_impact)], 1)
    | none =>
      .ok ([("standalone_creativity_score", PyJson.num standalone_score),
            ("contextual_creativity_score", PyJson.num contextual_score),
            ("difference", PyJson.num (round1 |standalone_score - contextual_score|)),
            ("analysis", PyJson.str analysis_response),
            ("influential_categories", PyJson.arr []),
            ("impact", PyJson.obj [])], 1)

end Narrow

namespace Wide

/-- Positive metric names of `src/evaluation.py` (higher is better). -/
def POSITIVE_CATEGORIES : List String := [
  "Adherence to Instructions",
  "Believable Character Actions",
  "Nuanced Characters",
  "Consistent Voice / Tone of Writing",
  "Imagery and Descriptive Quality",
  "Elegant Prose",
  "Emotionally Engaging",
  "Emotionally Complex",
  "Coherent",
  "Well-earned Lightness or Darkness",
  "Sentences Flow Naturally",
  "Overall Reader Engagement",
  "Overall Impression"]

/-- Negative metric names of `src/evaluation.py` (lower is better; the
apostrophe in one name is written with the escape x27). -/
def NEGATIVE_CATEGORIES : List String := [
  "Meandering",
  "Weak Dialogue",
  "Tell-Don\x27t-Show",
  "Unsurprising or Uncreative",
  "Amateurish",
  "Purple Prose",
  "Overwrought",
  "Incongruent Ending Positivity",
  "Unearned Transformations"]

/-- Full category list: positive then negative, as in `src/evaluation.py`. -/
def STORY_EVALUATION_CATEGORIES : List String :=
  POSITIVE_CATEGORIES ++ NEGATIVE_CATEGORIES

/-- Evaluation result of `src/evaluation.py`: category and score only. -/
structure EvaluationResult where
  category : String
  score : ℚ

/-- The clamp that `src/evaluation.py` applies inline after each successful
float conversion: `if score < 0: score = 0.0 elif score > 20: score = 20.0`. -/
def clamp (score : ℚ) : ℚ :=
  if score < 0 then 0 else if score > 20 then 20 else score

/-- Score extraction of `parse_response` in `src/evaluation.py`
(same shape as the narrow variant). -/
def scoreFromPayload (payload : PyJson) : Except PyErr (Option ℚ) :=
  match pyIn "score" payload with
  | .error e => .error e
  | .ok true =>
    match pyGet payload "score" PyJson.null with
    | .error e => .error e
    | .ok v =>
      match pyFloat v with
      | .error e => .error e
      | .ok q => .ok (some q)
  | .ok false => .ok none

/-- Model of `parse_response` in `src/evaluation.py`: no explanation, and a
match of the fallback pattern is rejected (returns `none`) when its value
lies outside 0..20. -/
def parse_response (loads : String → Option PyJson) (response : String) :
    Except PyErr (Option ℚ) :=
  let r := pystrip response
  if r = "" then .ok none
  else
    match loads r with
    | some payload => scoreFromPayload payload
    | none =>
      match regexSearch tryMatchW r with
      | some (_, m, _) =>
        let score := ratOfMatch m
        if score < 0 ∨ score > 20 then .ok none else .ok (some score)
      | none => .ok none

/-- Markdown code-fence stripping of `evaluate_all_categories` in
`src/evaluation.py`: strip, drop a leading triple-backtick-json marker (7
characters), then a leading triple backtick (3 characters), then a trailing
triple backtick, then strip again. -/
def stripCodeFences (response : String) : String :=
  let c := pystrip response
  let c := if prefixCheck "```json".data c.data then String.mk (c.data.drop 7) else c
  let c := if prefixCheck "```".data c.data then String.mk (c.data.drop 3) else c
  let c :=
    if prefixCheck "```".data.reverse c.data.reverse then
      String.mk (c.data.take (c.data.length - 3))
    else c
  pystrip c

/-- Key cleaning of the fuzzy lookup in `src/evaluation.py`:
`key.replace(" (POSITIVE)", "").replace(" (NEGATIVE/PENALTY)", "").strip()`. -/
def cleanKey (key : String) : String :=
  pystrip (removeAll (removeAll key " (POSITIVE)") " (NEGATIVE/PENALTY)")

/-- Fuzzy key lookup of `src/evaluation.py`: first value whose cleaned key
matches the category case-insensitively, by equality or either-way
substring containment. -/
def fuzzyMatch (category : String) (scores : List (String × PyJson)) : Option PyJson :=
  scores.findSome? fun p =>
    let ck := cleanKey p.1
    if pyLower category == pyLower ck
        || containsSeq (pyLower category).data (pyLower ck).data
        || containsSeq (pyLower ck).data (pyLower category).data then
      some p.2
    else none

/-- Predicate for the Python `is None` tests on values drawn from the scores
dict (a missing key and a JSON null value both read as Python `None`). -/
def isNullJson : PyJson → Bool
  | .null => true
  | _ => false

/-- Per-category score of the combined-response path of
`evaluate_all_categories` in `src/evaluation.py`: direct lookup, then fuzzy
lookup, then 0.0 for a still-missing score; a found value is float-converted
and clamped to 0..20, with `ValueError`/`TypeError` degrading to 0.0. -/
def scoreForCategory (scores : List (String × PyJson)) (category : String) : ℚ :=
  let score := (dictGet scores category).getD PyJson.null
  let score := if isNullJson score then (fuzzyMatch category scores).getD PyJson.null else score
  if isNullJson score then 0
  else
    match pyFloat score with
    | .ok q => clamp q
    | .error _ => 0

/-- Worker for the per-category fallback loop of `evaluate_all_categories`
in `src/evaluation.py` (entered when the combined response is not JSON):
one chat call per category starting at call index `i`; a missing score
defaults to 0.0 and a present one is clamped to 0..20. -/
def evalCatsFallback (loads : String → Option PyJson) (responses : Nat → String) :
    List String → Nat → Except PyErr (List (String × EvaluationResult))
  | [], _ => .ok []
  | c :: cs, i =>
    match parse_response loads (responses i) with
    | .error e => .error e
    | .ok s =>
      let score : ℚ := match s with | none => 0 | some q => clamp q
      match evalCatsFallback loads responses cs (i + 1) with
      | .error e => .error e
      | .ok rest => .ok ((c, ⟨c, score⟩) :: rest)

/-- Model of `StoryEvaluator.evaluate_all_categories` in `src/evaluation.py`.
Call 0 is the combined evaluation call.  If its fence-stripped text parses as
JSON, each category is scored from the `scores` object (`scoreForCategory`)
and the creativity call is call 1; accessing `scores` on a non-dict payload
raises `AttributeError`, which only `json.JSONDecodeError` being caught lets
propagate.  If it does not parse, one fallback call per category follows
(calls 1..22) and the creativity call is call 23. -/
def evaluate_all_categories (loads : String → Option PyJson) (responses : Nat → String) :
    Except PyErr (List (String × EvaluationResult)) :=
  let branch : Except PyErr (List (String × EvaluationResult) × Nat) :=
    match loads (stripCodeFences (responses 0)) with
    | some payload =>
      match pyGet payload "scores" (PyJson.obj []) with
      | .error e => .error e
      | .ok scoresJ =>
        match pyItems scoresJ with
        | .error e => .error e
        | .ok scores =>
          .ok (STORY_EVALUATION_CATEGORIES.map (fun c => (c, ⟨c, scoreForCategory scores c⟩)), 1)
    | none =>
      match evalCatsFallback loads responses STORY_EVALUATION_CATEGORIES 1 with
      | .error e => .error e
      | .ok rs => .ok (rs, 1 + STORY_EVALUATION_CATEGORIES.length)
  match branch with
  | .error e => .error e
  | .ok (results, idx) =>
    match parse_response loads (responses idx) with
    | .error e => .error e
    | .ok cs =>
      let creativity_score : ℚ := match cs with | none => 0 | some q => clamp q
      .ok (results ++ [("Creativity", ⟨"Creativity", creativity_score⟩)])

/-- Filter of `analyze_creativity_difference` in `src/evaluation.py`
(same comprehension as the narrow variant, over the wide vocabulary). -/
def validCategoriesOf (items : List PyJson) : List String :=
  items.filterMap fun v =>
    match v with
    | .str s => if STORY_EVALUATION_CATEGORIES.contains s then some s else none
    | _ => none

/-- Model of `StoryEvaluator.analyze_creativity_difference` in
`src/evaluation.py`.  Same conventions as the narrow variant; the returned
dicts carry only the four keys of the wide variant (no analysis text, no
impact map). -/
def analyze_creativity_difference (loads : String → Option PyJson)
    (analysis_response : String) (standalone_creativity : EvaluationResult)
    (all_categories_results : List (String × EvaluationResult)) :
    Except PyErr (List (String × PyJson) × Nat) :=
  let standalone_score := standalone_creativity.score
  let contextual_score :=
    ((dictGet all_categories_results "Creativity").getD standalone_creativity).score
  if |standalone_score - contextual_score| < 1 / 10 then
    .ok ([("standalone_creativity_score", PyJson.num standalone_score),
          ("contextual_creativity_score", PyJson.num contextual_score),
          ("difference", PyJson.num 0),
          ("influential_categories", PyJson.arr [])], 0)
  else
    match loads analysis_response with
    | some analysis_data =>
      match pyGet analysis_data "influential_categories" (PyJson.arr []) with
      | .error e => .error e
      | .ok infl =>
        match pyIterate infl with
        | .error e => .error e
        | .ok items =>
          let valid_categories := validCategoriesOf items
          .ok ([("standalone_creativity_score", PyJson.num standalone_score),
                ("contextual_creativity_score", PyJson.num contextual_score),
                ("difference", PyJson.num (round1 |standalone_score - contextual_score|)),
                ("influential_categories",
                  PyJson.arr (valid_categories.map PyJson.str))], 1)
    | none =>
      .ok ([("standalone_creativity_score", PyJson.num standalone_score),
            ("contextual_creativity_score", PyJson.num contextual_score),
            ("difference", PyJson.num (round1 |standalone_score - contextual_score|)),
            ("influential_categories", PyJson.arr [])], 1)

end Wide

/-- Boolean check that a value is a JSON list all of whose elements are
strings drawn from the given vocabulary. -/
def influentialValid (vocab : List String) : PyJson → Bool
  | .arr xs =>
    xs.all fun x =>
      match x with
      | .str s => vocab.contains s
      | _ => false
  | _ => false

/-- Oracle for inputs that are not valid JSON: `json.loads` raises
`json.JSONDecodeError` on every string handed to it below (none of them is
well-formed JSON). -/
def loadsNone : String → Option PyJson := fun _ => none

/-- Oracle agreeing with `json.loads` on the JSON object text that has an
`explanation` entry but no `score` entry. -/
def loadsNoScore : String → Option PyJson := fun s =>
  if s = "\x7b\"explanation\": \"8 out of 10\"\x7d" then
    some (PyJson.obj [("explanation", PyJson.str "8 out of 10")])
  else none

/-- Oracle agreeing with `json.loads` on the input "8", a valid JSON document
whose value is the number 8 (not an object). -/
def loadsEight : String → Option PyJson := fun s =>
  if s = "8" then some (PyJson.num 8) else none

/-- Oracle agreeing with `json.loads` on a JSON object whose score is null. -/
def loadsNullScore : String → Option PyJson := fun s =>
  if s = "\x7b\"score\": null\x7d" then some (PyJson.obj [("score", PyJson.null)]) else none

/-- Oracle agreeing with `json.loads` on a JSON object carrying score 7.5 and
an explanation padded with spaces. -/
def loadsClear : String → Option PyJson := fun s =>
  if s = "\x7b\"score\": 7.5, \"explanation\": \" clear \"\x7d" then
    some (PyJson.obj [("score", PyJson.num (15 / 2)), ("explanation", PyJson.str " clear ")])
  else none

/-- Oracle agreeing with `json.loads` on a JSON object carrying the
out-of-interval score 50. -/
def loadsFifty : String → Option PyJson := fun s =>
  if s = "\x7b\"score\": 50\x7d" then some (PyJson.obj [("score", PyJson.num 50)]) else none

/-- Result list produced by the narrow evaluator when every response is the
unparseable text "no score here". -/
def narrowAllZero : List (String × Narrow.EvaluationResult) :=
  Narrow.STORY_EVALUATION_CATEGORIES.map (fun c => (c, ⟨c, 0, "no score here"⟩)) ++
    [("Creativity", ⟨"Creativity", 0, "no score here"⟩)]

/-- Result list produced by the wide evaluator when every response is the
digit-free text "good". -/
def wideAllZero : List (String × Wide.EvaluationResult) :=
  Wide.STORY_EVALUATION_CATEGORIES.map (fun c => (c, ⟨c, 0⟩)) ++
    [("Creativity", ⟨"Creativity", 0⟩)]

/-- Early-return dict of the narrow `analyze_creativity_difference` for two
equal creativity scores of 5. -/
def narrowEarlyDict : List (String × PyJson) :=
  [("standalone_creativity_score", PyJson.num 5),
   ("contextual_creativity_score", PyJson.num 5),
   ("difference", PyJson.num 0),
   ("analysis", PyJson.str "The creativity scores are essentially the same. No significant difference to analyze."),
   ("influential_categories", PyJson.arr [])]

theorem orElse_eq_some {α : Type} {a : Option α} {f : Unit → Option α} {v : α}
    (h : a.orElse f = some v) : a = some v ∨ (a = none ∧ f () = some v) := by
  cases a with
  | none => right; exact ⟨rfl, h⟩
  | some x => left; simpa [Option.orElse] using h

theorem altN1_sound {cs m rest : List Char} (h : altN1 cs = some (m, rest)) :
    cs = m ++ rest ∧ noDigitAhead rest = true ∧
      ∃ d, isDigitChar d = true ∧ m = ['1', '0', '.', d] := by
  unfold altN1 at h
  split at h
  · split at h
    · rename_i hc
      injection h with h'
      injection h' with hm hr
      subst hm; subst hr
      simp only [Bool.and_eq_true] at hc
      exact ⟨rfl, hc.2, _, hc.1, rfl⟩
    · exact absurd h (by simp)
  · exact absurd h (by simp)

theorem altN2_sound {cs m rest : List Char} (h : altN2 cs = some (m, rest)) :
    cs = m ++ rest ∧ noDigitAhead rest = true ∧ m = ['1', '0'] := by
  unfold altN2 at h
  split at h
  · split at h
    · rename_i hc
      injection h with h'
      injection h' with hm hr
      subst hm; subst hr
      exact ⟨rfl, hc, rfl⟩
    · exact absurd h (by simp)
  · exact absurd h (by simp)

theorem altN3_sound {cs m rest : List Char} (h : altN3 cs = some (m, rest)) :
    cs = m ++ rest ∧ noDigitAhead rest = true ∧
      ∃ a d, (49 ≤ a.toNat ∧ a.toNat ≤ 57) ∧ isDigitChar d = true ∧ m = [a, '.', d] := by
  unfold altN3 at h
  split at h
  · split at h
    · rename_i hc
      injection h with h'
      injection h' with hm hr
      subst hm; subst hr
      simp only [Bool.and_eq_true, decide_eq_true_eq] at hc
      exact ⟨rfl, hc.2, _, _, hc.1.1, hc.1.2, rfl⟩
    · exact absurd h (by simp)
  · exact absurd h (by simp)

theorem altN4_sound {cs m rest : List Char} (h : altN4 cs = some (m, rest)) :
    cs = m ++ rest ∧ noDigitAhead rest = true ∧
      ∃ a, (49 ≤ a.toNat ∧ a.toNat ≤ 57) ∧ m = [a] := by
  unfold altN4 at h
  split at h
  · split at h
    · rename_i hc
      injection h with h'
      injection h' with hm hr
      subst hm; subst hr
      simp only [Bool.and_eq_true, decide_eq_true_eq] at hc
      exact ⟨rfl, hc.2, _, hc.1, rfl⟩
    · exact absurd h (by simp)
  · exact absurd h (by simp)

theorem withOptDec_sound {ip rest m rest2 : List Char}
    (h : withOptDec ip rest = some (m, rest2)) :
    ip ++ rest = m ++ rest2 ∧ noDigitAhead rest2 = true ∧
      (m = ip ∨ ∃ d, isDigitChar d = true ∧ m = ip ++ ['.', d]) := by
  unfold withOptDec at h
  split at h
  · rename_i d rest3
    split at h
    · rename_i hc
      injection h with h'
      injection h' with hm hr
      subst hm; subst hr
      simp only [Bool.and_eq_true] at hc
      exact ⟨by simp, hc.2, Or.inr ⟨d, hc.1, rfl⟩⟩
    · injection h with h'
      injection h' with hm hr
      subst hm; subst hr
      exact ⟨rfl, rfl, Or.inl rfl⟩
  · split at h
    · rename_i hc
      injection h with h'
      injection h' with hm hr
      subst hm; subst hr
      exact ⟨rfl, hc, Or.inl rfl⟩
    · exact absurd h (by simp)

theorem altW1_sound {cs m rest : List Char} (h : altW1 cs = some (m, rest)) :
    cs = m ++ rest ∧ noDigitAhead rest = true ∧
      (m = ['2', '0'] ∨ ∃ d, isDigitChar d = true ∧ m = ['2', '0', '.', d]) := by
  unfold altW1 at h
  split at h
  · rename_i rest0
    obtain ⟨heq, hla, hd⟩ := withOptDec_sound h
    refine ⟨by simpa using heq, hla, ?_⟩
    rcases hd with hd | ⟨d, hd, hm⟩
    · exact Or.inl hd
    · exact Or.inr ⟨d, hd, by simpa using hm⟩
  · exact absurd h (by simp)

theorem altW2_sound {cs m rest : List Char} (h : altW2 cs = some (m, rest)) :
    cs = m ++ rest ∧ noDigitAhead rest = true ∧
      ∃ b, isDigitChar b = true ∧
        (m = ['1', b] ∨ ∃ d, isDigitChar d = true ∧ m = ['1', b, '.', d]) := by
  unfold altW2 at h
  split at h
  · rename_i b rest0
    split at h
    · rename_i hb
      obtain ⟨heq, hla, hd⟩ := withOptDec_sound h
      refine ⟨by simpa using heq, hla, b, hb, ?_⟩
      rcases hd with hd | ⟨d, hd, hm⟩
      · exact Or.inl hd
      · exact Or.inr ⟨d, hd, by simpa using hm⟩
    · exact absurd h (by simp)
  · exact absurd h (by simp)

theorem altW3_sound {cs m rest : List Char} (h : altW3 cs = some (m, rest)) :
    cs = m ++ rest ∧ noDigitAhead rest = true ∧
      ∃ a, isDigitChar a = true ∧
        (m = [a] ∨ ∃ d, isDigitChar d = true ∧ m = [a, '.', d]) := by
  unfold altW3 at h
  split at h
  · rename_i a rest0
    split at h
    · rename_i ha
      obtain ⟨heq, hla, hd⟩ := withOptDec_sound h
      refine ⟨by simpa using heq, hla, a, ha, ?_⟩
      rcases hd with hd | ⟨d, hd, hm⟩
      · exact Or.inl hd
      · exact Or.inr ⟨d, hd, by simpa using hm⟩
    · exact absurd h (by simp)
  · exact absurd h (by simp)

theorem mkRat_div_bounds {n lo hi : ℕ} (h1 : lo ≤ n) (h2 : n ≤ hi) :
    (lo : ℚ) / 10 ≤ mkRat (n : ℕ) 10 ∧ mkRat (n : ℕ) 10 ≤ (hi : ℚ) / 10 := by
  rw [Rat.mkRat_eq_divInt, Rat.divInt_eq_div]
  push_cast
  constructor
  · gcongr
  · gcongr



theorem digit_sub_bounds {c : Char} (h : isDigitChar c = true) : c.toNat - 48 ≤ 9 := by
  simp only [isDigitChar, Bool.and_eq_true, decide_eq_true_eq] at h
  omega

theorem ratOfMatch_one_bounds (a : Char) (l u : ℕ) (h1 : l ≤ a.toNat - 48)
    (h2 : a.toNat - 48 ≤ u) : (l : ℚ) ≤ ratOfMatch [a] ∧ ratOfMatch [a] ≤ (u : ℚ) := by
  have hv : ratOfMatch [a] = ((a.toNat - 48 : ℕ) : ℚ) := rfl
  rw [hv]
  exact ⟨by exact_mod_cast h1, by exact_mod_cast h2⟩

theorem ratOfMatch_two_bounds (a b : Char) (l u : ℕ)
    (h1 : l ≤ 10 * (a.toNat - 48) + (b.toNat - 48))
    (h2 : 10 * (a.toNat - 48) + (b.toNat - 48) ≤ u) :
    (l : ℚ) ≤ ratOfMatch [a, b] ∧ ratOfMatch [a, b] ≤ (u : ℚ) := by
  have hv : ratOfMatch [a, b] = ((10 * (a.toNat - 48) + (b.toNat - 48) : ℕ) : ℚ) := rfl
  rw [hv]
  exact ⟨by exact_mod_cast h1, by exact_mod_cast h2⟩

theorem ratOfMatch_three_bounds (a c d : Char) (l u : ℕ)
    (h1 : l ≤ 10 * (a.toNat - 48) + (d.toNat - 48))
    (h2 : 10 * (a.toNat - 48) + (d.toNat - 48) ≤ u) :
    (l : ℚ) / 10 ≤ ratOfMatch [a, c, d] ∧ ratOfMatch [a, c, d] ≤ (u : ℚ) / 10 := by
  have hv : ratOfMatch [a, c, d] = mkRat (10 * (a.toNat - 48) + (d.toNat - 48) : ℕ) 10 := rfl
  rw [hv]
  exact mkRat_div_bounds h1 h2

theorem ratOfMatch_four_bounds (a b c d : Char) (l u : ℕ)
    (h1 : l ≤ 100 * (a.toNat - 48) + 10 * (b.toNat - 48) + (d.toNat - 48))
    (h2 : 100 * (a.toNat - 48) + 10 * (b.toNat - 48) + (d.toNat - 48) ≤ u) :
    (l : ℚ) / 10 ≤ ratOfMatch [a, b, c, d] ∧ ratOfMatch [a, b, c, d] ≤ (u : ℚ) / 10 := by
  have hv : ratOfMatch [a, b, c, d] =
      mkRat (100 * (a.toNat - 48) + 10 * (b.toNat - 48) + (d.toNat - 48) : ℕ) 10 := rfl
  rw [hv]
  exact mkRat_div_bounds h1 h2

theorem tryMatchN_sound {cs m rest : List Char} (h : tryMatchN cs = some (m, rest)) :
    cs = m ++ rest ∧ noDigitAhead rest = true ∧
      1 ≤ ratOfMatch m ∧ ratOfMatch m ≤ 109 / 10 := by
  have e1 : ('1'.toNat : ℕ) = 49 := rfl
  have e0 : ('0'.toNat : ℕ) = 48 := rfl
  unfold tryMatchN at h
  rcases orElse_eq_some h with h1 | ⟨_, h⟩
  · obtain ⟨hcs, hla, d, hd, hm⟩ := altN1_sound h1
    subst hm
    have hb := digit_sub_bounds hd
    obtain ⟨hl, hr⟩ := ratOfMatch_four_bounds '1' '0' '.' d 100 109 (by omega) (by omega)
    exact ⟨hcs, hla, le_trans (by norm_num) hl, le_trans hr (by norm_num)⟩
  rcases orElse_eq_some h with h1 | ⟨_, h⟩
  · obtain ⟨hcs, hla, hm⟩ := altN2_sound h1
    subst hm
    obtain ⟨hl, hr⟩ := ratOfMatch_two_bounds '1' '0' 10 10 (by omega) (by omega)
    exact ⟨hcs, hla, le_trans (by norm_num) hl, le_trans hr (by norm_num)⟩
  rcases orElse_eq_some h with h1 | ⟨_, h⟩
  · obtain ⟨hcs, hla, a, d, ha, hd, hm⟩ := altN3_sound h1
    subst hm
    have hb := digit_sub_bounds hd
    obtain ⟨hl, hr⟩ := ratOfMatch_three_bounds a '.' d 10 99 (by omega) (by omega)
    exact ⟨hcs, hla, le_trans (by norm_num) hl, le_trans hr (by norm_num)⟩
  · obtain ⟨hcs, hla, a, ha, hm⟩ := altN4_sound h
    subst hm
    obtain ⟨hl, hr⟩ := ratOfMatch_one_bounds a 1 9 (by omega) (by omega)
    exact ⟨hcs, hla, le_trans (by norm_num) hl, le_trans hr (by norm_num)⟩

theorem tryMatchW_sound {cs m rest : List Char} (h : tryMatchW cs = some (m, rest)) :
    cs = m ++ rest ∧ noDigitAhead rest = true ∧
      0 ≤ ratOfMatch m ∧ ratOfMatch m ≤ 209 / 10 := by
  have e2 : ('2'.toNat : ℕ) = 50 := rfl
  have e1 : ('1'.toNat : ℕ) = 49 := rfl
  have e0 : ('0'.toNat : ℕ) = 48 := rfl
  unfold tryMatchW at h
  rcases orElse_eq_some h with h1 | ⟨_, h⟩
  · obtain ⟨hcs, hla, hm⟩ := altW1_sound h1
    rcases hm with hm | ⟨d, hd, hm⟩ <;> subst hm
    · obtain ⟨hl, hr⟩ := ratOfMatch_two_bounds '2' '0' 20 20 (by omega) (by omega)
      exact ⟨hcs, hla, le_trans (by norm_num) hl, le_trans hr (by norm_num)⟩
    · have hb := digit_sub_bounds hd
      obtain ⟨hl, hr⟩ := ratOfMatch_four_bounds '2' '0' '.' d 200 209 (by omega) (by omega)
      exact ⟨hcs, hla, le_trans (by norm_num) hl, le_trans hr (by norm_num)⟩
  rcases orElse_eq_some h with h1 | ⟨_, h⟩
  · obtain ⟨hcs, hla, b, hb, hm⟩ := altW2_sound h1
    have hbb := digit_sub_bounds hb
    rcases hm with hm | ⟨d, hd, hm⟩ <;> subst hm
    · obtain ⟨hl, hr⟩ := ratOfMatch_two_bounds '1' b 10 19 (by omega) (by omega)
      exact ⟨hcs, hla, le_trans (by norm_num) hl, le_trans hr (by norm_num)⟩
    · have hdb := digit_sub_bounds hd
      obtain ⟨hl, hr⟩ := ratOfMatch_four_bounds '1' b '.' d 100 199 (by omega) (by omega)
      exact ⟨hcs, hla, le_trans (by norm_num) hl, le_trans hr (by norm_num)⟩
  · obtain ⟨hcs, hla, a, ha, hm⟩ := altW3_sound h
    have hab := digit_sub_bounds ha
    rcases hm with hm | ⟨d, hd, hm⟩ <;> subst hm
    · obtain ⟨hl, hr⟩ := ratOfMatch_one_bounds a 0 9 (by omega) (by omega)
      exact ⟨hcs, hla, le_trans (by norm_num) hl, le_trans hr (by norm_num)⟩
    · have hdb := digit_sub_bounds hd
      obtain ⟨hl, hr⟩ := ratOfMatch_three_bounds a '.' d 0 99 (by omega) (by omega)
      exact ⟨hcs, hla, le_trans (by norm_num) hl, le_trans hr (by norm_num)⟩

theorem searchAux_sound {f : List Char → Option (List Char × List Char)} :
    ∀ (l acc : List Char) (prevD : Bool) (pre m post : List Char),
      prevD = (match acc.head? with | none => false | some c => isDigitChar c) →
      searchAux f prevD acc l = some (pre, m, post) →
      (∃ cs, f cs = some (m, post) ∧ pre ++ cs = acc.reverse ++ l) ∧
        (∀ c, pre.getLast? = some c → isDigitChar c = false) := by
  intro l
  induction l with
  | nil =>
    intro acc prevD pre m post _ h
    exact absurd h (by simp [searchAux])
  | cons c cs ih =>
    intro acc prevD pre m post hinv h
    unfold searchAux at h
    by_cases hp : prevD = true
    · rw [if_pos hp] at h
      obtain ⟨⟨cs2, hf, heq⟩, hlast⟩ := ih (c :: acc) (isDigitChar c) pre m post rfl h
      refine ⟨⟨cs2, hf, ?_⟩, hlast⟩
      rw [heq]
      simp
    · rw [if_neg hp] at h
      rcases hft : f (c :: cs) with _ | mr
      · rw [hft] at h
        obtain ⟨⟨cs2, hf, heq⟩, hlast⟩ := ih (c :: acc) (isDigitChar c) pre m post rfl h
        refine ⟨⟨cs2, hf, ?_⟩, hlast⟩
        rw [heq]
        simp
      · rw [hft] at h
        obtain ⟨m2, rest2⟩ := mr
        injection h with h'
        injection h' with hpre h''
        injection h'' with hm hpost
        subst hpre; subst hm; subst hpost
        refine ⟨⟨c :: cs, hft, rfl⟩, ?_⟩
        intro c2 hc2
        rw [List.getLast?_reverse] at hc2
        cases hacc : acc.head? with
        | none => rw [hacc] at hc2; exact absurd hc2 (by simp)
        | some a =>
          rw [hacc] at hc2 hinv
          injection hc2 with hc2
          subst hc2
          simp only at hinv
          simp only [Bool.not_eq_true] at hp
          rw [← hinv]
          exact hp

theorem regexSearch_sound {f : List Char → Option (List Char × List Char)}
    (hs : ∀ cs m2 r2, f cs = some (m2, r2) → cs = m2 ++ r2)
    (s : String) {pre m post : List Char}
    (h : regexSearch f s = some (pre, m, post)) :
    s.data = pre ++ m ++ post ∧ (∀ c, pre.getLast? = some c → isDigitChar c = false) ∧
      ∃ cs, f cs = some (m, post) := by
  obtain ⟨⟨cs, hf, heq⟩, hlast⟩ := searchAux_sound s.data [] false pre m post rfl h
  have hcs := hs _ _ _ hf
  subst hcs
  refine ⟨?_, hlast, _, hf⟩
  rw [List.append_assoc]
  simpa using heq.symm

theorem Narrow_evalCats_spec (loads : String → Option PyJson) (responses : Nat → String) :
    ∀ (cats : List String) (i : Nat) (res : List (String × Narrow.EvaluationResult)),
      Narrow.evalCats loads responses cats i = .ok res →
      res.map Prod.fst = cats ∧
        ∀ j c, cats.get? j = some c → ∃ s e,
          Narrow.parse_response loads (responses (i + j)) = .ok (s, e) ∧
            res.get? j = some (c, ⟨c, s.getD 0, e⟩) := by
  intro cats
  induction cats with
  | nil =>
    intro i res h
    simp only [Narrow.evalCats] at h
    injection h with h'
    subst h'
    exact ⟨rfl, by intro j c hc; simp at hc⟩
  | cons c cs ih =>
    intro i res h
    simp only [Narrow.evalCats] at h
    cases hp : Narrow.parse_response loads (responses i) with
    | error e => rw [hp] at h; exact absurd h (by simp)
    | ok se =>
      rw [hp] at h
      obtain ⟨s, expl⟩ := se
      cases hrec : Narrow.evalCats loads responses cs (i + 1) with
      | error e2 => rw [hrec] at h; exact absurd h (by simp)
      | ok rest =>
        rw [hrec] at h
        injection h with h'
        subst h'
        obtain ⟨ihmap, ihidx⟩ := ih (i + 1) rest hrec
        refine ⟨by simp [ihmap], ?_⟩
        intro j cj hcj
        cases j with
        | zero =>
          simp only [List.get?] at hcj
          injection hcj with hcj
          subst hcj
          exact ⟨s, expl, by simpa using hp, by simp⟩
        | succ j2 =>
          simp only [List.get?] at hcj
          obtain ⟨s2, e2, hp2, hres2⟩ := ihidx j2 cj hcj
          refine ⟨s2, e2, ?_, by simpa using hres2⟩
          have harith : i + (j2 + 1) = i + 1 + j2 := by omega
          rw [harith]
          exact hp2

theorem Wide_clamp_bounds (q : ℚ) : 0 ≤ Wide.clamp q ∧ Wide.clamp q ≤ 20 := by
  unfold Wide.clamp
  split_ifs with h1 h2
  · norm_num
  · norm_num
  · push_neg at h1 h2
    exact ⟨h1, h2⟩

theorem Wide_evalCatsFallback_spec (loads : String → Option PyJson) (responses : Nat → String) :
    ∀ (cats : List String) (i : Nat) (res : List (String × Wide.EvaluationResult)),
      Wide.evalCatsFallback loads responses cats i = .ok res →
      res.map Prod.fst = cats ∧
        (∀ p, p ∈ res → 0 ≤ p.2.score ∧ p.2.score ≤ 20) ∧
        ∀ j c, cats.get? j = some c → ∃ s,
          Wide.parse_response loads (responses (i + j)) = .ok s ∧
            res.get? j =
              some (c, ⟨c, match s with | none => 0 | some q => Wide.clamp q⟩) := by
  intro cats
  induction cats with
  | nil =>
    intro i res h
    simp only [Wide.evalCatsFallback] at h
    injection h with h'
    subst h'
    exact ⟨rfl, by simp, by intro j c hc; simp at hc⟩
  | cons c cs ih =>
    intro i res h
    simp only [Wide.evalCatsFallback] at h
    cases hp : Wide.parse_response loads (responses i) with
    | error e => rw [hp] at h; exact absurd h (by simp)
    | ok s =>
      rw [hp] at h
      cases hrec : Wide.evalCatsFallback loads responses cs (i + 1) with
      | error e2 => rw [hrec] at h; exact absurd h (by simp)
      | ok rest =>
        rw [hrec] at h
        injection h with h'
        subst h'
        obtain ⟨ihmap, ihmem, ihidx⟩ := ih (i + 1) rest hrec
        refine ⟨by simp [ihmap], ?_, ?_⟩
        · intro p hp2
          rcases List.mem_cons.mp hp2 with hp2 | hp2
          · subst hp2
            cases s with
            | none => exact ⟨le_refl 0, by norm_num⟩
            | some q => exact Wide_clamp_bounds q
          · exact ihmem p hp2
        · intro j cj hcj
          cases j with
          | zero =>
            simp only [List.get?] at hcj
            injection hcj with hcj
            subst hcj
            exact ⟨s, by simpa using hp, by simp⟩
          | succ j2 =>
            simp only [List.get?] at hcj
            obtain ⟨s2, hp2, hres2⟩ := ihidx j2 cj hcj
            refine ⟨s2, ?_, by simpa using hres2⟩
            have harith : i + (j2 + 1) = i + 1 + j2 := by omega
            rw [harith]
            exact hp2

theorem Wide_scoreForCategory_bounds (scores : List (String × PyJson)) (c : String) :
    0 ≤ Wide.scoreForCategory scores c ∧ Wide.scoreForCategory scores c ≤ 20 := by
  have hm : ∀ r : Except PyErr ℚ,
      0 ≤ (match r with | Except.ok q => Wide.clamp q | Except.error _ => (0 : ℚ)) ∧
        (match r with | Except.ok q => Wide.clamp q | Except.error _ => (0 : ℚ)) ≤ 20 := by
    intro r
    cases r with
    | ok q => exact Wide_clamp_bounds q
    | error e => exact ⟨le_refl 0, by norm_num⟩
  simp only [Wide.scoreForCategory]
  split_ifs
  all_goals first
  | exact ⟨le_refl 0, by norm_num⟩
  | exact hm _

theorem analyze_early_narrow (loads : String → Option PyJson) (resp : String)
    (st : Narrow.EvaluationResult) (allr : List (String × Narrow.EvaluationResult))
    (h : |st.score - ((dictGet allr "Creativity").getD st).score| < 1 / 10) :
    (Narrow.analyze_creativity_difference loads resp st allr).map
        (fun r => (dictGet r.1 "difference", dictGet r.1 "influential_categories", r.2)) =
      .ok (some (PyJson.num 0), some (PyJson.arr []), 0) := by
  simp only [Narrow.analyze_creativity_difference]
  rw [if_pos h]
  rfl

theorem analyze_early_wide (loads : String → Option PyJson) (resp : String)
    (st : Wide.EvaluationResult) (allr : List (String × Wide.EvaluationResult))
    (h : |st.score - ((dictGet allr "Creativity").getD st).score| < 1 / 10) :
    (Wide.analyze_creativity_difference loads resp st allr).map
        (fun r => (dictGet r.1 "difference", dictGet r.1 "influential_categories", r.2)) =
      .ok (some (PyJson.num 0), some (PyJson.arr []), 0) := by
  simp only [Wide.analyze_creativity_difference]
  rw [if_pos h]
  rfl

theorem tol_zero_narrow :
    |(Narrow.EvaluationResult.mk "Creativity" 5 "").score -
        ((dictGet ([] : List (String × Narrow.EvaluationResult)) "Creativity").getD
          (Narrow.EvaluationResult.mk "Creativity" 5 "")).score| < 1 / 10 := by
  simp [dictGet]

/-- C7: for every pair of creativity results whose scores differ by strictly
less than 0.1, `analyze_creativity_difference` (in both variants) returns a
difference of 0.0 and an empty influential-category list, and issues no chat
call (the call counter of the model is 0). -/
theorem C7_tolerance_short_circuit :
    (∀ (loads : String → Option PyJson) (resp : String)
        (st : Narrow.EvaluationResult) (allr : List (String × Narrow.EvaluationResult)),
      |st.score - ((dictGet allr "Creativity").getD st).score| < 1 / 10 →
      (Narrow.analyze_creativity_difference loads resp st allr).map
          (fun r => (dictGet r.1 "difference", dictGet r.1 "influential_categories", r.2)) =
        .ok (some (PyJson.num 0), some (PyJson.arr []), 0)) ∧
    (∀ (loads : String → Option PyJson) (resp : String)
        (st : Wide.EvaluationResult) (allr : List (String × Wide.EvaluationResult)),
      |st.score - ((dictGet allr "Creativity").getD st).score| < 1 / 10 →
      (Wide.analyze_creativity_difference loads resp st allr).map
          (fun r => (dictGet r.1 "difference", dictGet r.1 "influential_categories", r.2)) =
        .ok (some (PyJson.num 0), some (PyJson.arr []), 0)) :=
  ⟨fun loads resp st allr h => analyze_early_narrow loads resp st allr h,
   fun loads resp st allr h => analyze_early_wide loads resp st allr h⟩

/-- Witness for C7 at a concrete input: equal scores of 5 on both sides. -/
theorem C7_witness :
    (Narrow.analyze_creativity_difference loadsNone "irrelevant"
        (Narrow.EvaluationResult.mk "Creativity" 5 "")
        ([] : List (String × Narrow.EvaluationResult))).map
        (fun r => (dictGet r.1 "difference", dictGet r.1 "influential_categories", r.2)) =
      .ok (some (PyJson.num 0), some (PyJson.arr []), 0) :=
  C7_tolerance_short_circuit.1 loadsNone "irrelevant"
    (Narrow.EvaluationResult.mk "Creativity" 5 "") [] tol_zero_narrow

/-- C10: when the contextual result set has no "Creativity" key, the
standalone result is substituted, so the difference is 0.0, the
influential-category list is empty, and no chat call is issued (in both
variants). -/
theorem C10_missing_creativity_key :
    (∀ (loads : String → Option PyJson) (resp : String)
        (st : Narrow.EvaluationResult) (allr : List (String × Narrow.EvaluationResult)),
      dictGet allr "Creativity" = none →
      (Narrow.analyze_creativity_difference loads resp st allr).map
          (fun r => (dictGet r.1 "difference", dictGet r.1 "influential_categories", r.2)) =
        .ok (some (PyJson.num 0), some (PyJson.arr []), 0)) ∧
    (∀ (loads : String → Option PyJson) (resp : String)
        (st : Wide.EvaluationResult) (allr : List (String × Wide.EvaluationResult)),
      dictGet allr "Creativity" = none →
      (Wide.analyze_creativity_difference loads resp st allr).map
          (fun r => (dictGet r.1 "difference", dictGet r.1 "influential_categories", r.2)) =
        .ok (some (PyJson.num 0), some (PyJson.arr []), 0)) := by
  constructor
  · intro loads resp st allr h
    refine analyze_early_narrow loads resp st allr ?_
    rw [h]
    simp
  · intro loads resp st allr h
    refine analyze_early_wide loads resp st allr ?_
    rw [h]
    simp

/-- Witness for C10 at a concrete input: a result set with no Creativity key. -/
theorem C10_witness :
    (Narrow.analyze_creativity_difference loadsNone "text"
        (Narrow.EvaluationResult.mk "Creativity" 3 "why")
        ([] : List (String × Narrow.EvaluationResult))).map
        (fun r => (dictGet r.1 "difference", dictGet r.1 "influential_categories", r.2)) =
      .ok (some (PyJson.num 0), some (PyJson.arr []), 0) :=
  C10_missing_creativity_key.1 loadsNone "text"
    (Narrow.EvaluationResult.mk "Creativity" 3 "why") [] rfl

theorem validCategoriesOf_contains_narrow {items : List PyJson} {s : String}
    (hs : s ∈ Narrow.validCategoriesOf items) :
    Narrow.STORY_EVALUATION_CATEGORIES.contains s = true := by
  simp only [Narrow.validCategoriesOf, List.mem_filterMap] at hs
  obtain ⟨v, _, hf⟩ := hs
  cases v <;> simp only at hf
  case str s2 =>
    split at hf
    · injection hf with hf
      subst hf
      assumption
    · exact absurd hf (by simp)
  all_goals exact absurd hf (by simp)

theorem validCategoriesOf_contains_wide {items : List PyJson} {s : String}
    (hs : s ∈ Wide.validCategoriesOf items) :
    Wide.STORY_EVALUATION_CATEGORIES.contains s = true := by
  simp only [Wide.validCategoriesOf, List.mem_filterMap] at hs
  obtain ⟨v, _, hf⟩ := hs
  cases v <;> simp only at hf
  case str s2 =>
    split at hf
    · injection hf with hf
      subst hf
      assumption
    · exact absurd hf (by simp)
  all_goals exact absurd hf (by simp)

theorem influentialValid_map_str {vocab : List String} {l : List String}
    (h : ∀ s, s ∈ l → vocab.contains s = true) :
    influentialValid vocab (PyJson.arr (l.map PyJson.str)) = true := by
  simp only [influentialValid, List.all_eq_true]
  intro x hx
  rw [List.mem_map] at hx
  obtain ⟨s, hs, hxs⟩ := hx
  subst hxs
  simpa using h s hs

theorem analyze_influential_narrow {loads : String → Option PyJson} {resp : String}
    {st : Narrow.EvaluationResult} {allr : List (String × Narrow.EvaluationResult)}
    {d : List (String × PyJson)} {n : Nat} {v : PyJson}
    (h : Narrow.analyze_creativity_difference loads resp st allr = .ok (d, n))
    (hv : dictGet d "influential_categories" = some v) :
    influentialValid Narrow.STORY_EVALUATION_CATEGORIES v = true := by
  simp only [Narrow.analyze_creativity_difference] at h
  split at h
  · injection h with h2
    injection h2 with h3 h4
    subst h3
    have hveq : some v = some (PyJson.arr []) := by rw [← hv]; rfl
    injection hveq with hveq
    subst hveq
    rfl
  · split at h
    · rename_i ad hqad
      split at h
      · exact absurd h (by simp)
      · rename_i infl hqinfl
        split at h
        · exact absurd h (by simp)
        · rename_i items hqitems
          split at h
          · exact absurd h (by simp)
          · rename_i impact hqimpact
            split at h
            · exact absurd h (by simp)
            · rename_i vimp hqvimp
              split at h
              · exact absurd h (by simp)
              · rename_i av hqav
                injection h with h2
                injection h2 with h3 h4
                subst h3
                have hveq : some v =
                    some (PyJson.arr ((Narrow.validCategoriesOf items).map PyJson.str)) := by
                  rw [← hv]; rfl
                injection hveq with hveq
                subst hveq
                exact influentialValid_map_str fun s hs => validCategoriesOf_contains_narrow hs
    · injection h with h2
      injection h2 with h3 h4
      subst h3
      have hveq : some v = some (PyJson.arr []) := by rw [← hv]; rfl
      injection hveq with hveq
      subst hveq
      rfl

theorem analyze_influential_wide {loads : String → Option PyJson} {resp : String}
    {st : Wide.EvaluationResult} {allr : List (String × Wide.EvaluationResult)}
    {d : List (String × PyJson)} {n : Nat} {v : PyJson}
    (h : Wide.analyze_creativity_difference loads resp st allr = .ok (d, n))
    (hv : dictGet d "influential_categories" = some v) :
    influentialValid Wide.STORY_EVALUATION_CATEGORIES v = true := by
  simp only [Wide.analyze_creativity_difference] at h
  split at h
  · injection h with h2
    injection h2 with h3 h4
    subst h3
    have hveq : some v = some (PyJson.arr []) := by rw [← hv]; rfl
    injection hveq with hveq
    subst hveq
    rfl
  · split at h
    · rename_i ad hqad
      split at h
      · exact absurd h (by simp)
      · rename_i infl hqinfl
        split at h
        · exact absurd h (by simp)
        · rename_i items hqitems
          injection h with h2
          injection h2 with h3 h4
          subst h3
          have hveq : some v =
              some (PyJson.arr ((Wide.validCategoriesOf items).map PyJson.str)) := by
            rw [← hv]; rfl
          injection hveq with hveq
          subst hveq
          exact influentialValid_map_str fun s hs => validCategoriesOf_contains_wide hs
    · injection h with h2
      injection h2 with h3 h4
      subst h3
      have hveq : some v = some (PyJson.arr []) := by rw [← hv]; rfl
      injection hveq with hveq
      subst hveq
      rfl

theorem narrow_early_run :
    Narrow.analyze_creativity_difference loadsNone "x"
        (Narrow.EvaluationResult.mk "Creativity" 5 "")
        ([] : List (String × Narrow.EvaluationResult)) = .ok (narrowEarlyDict, 0) := by
  simp only [Narrow.analyze_creativity_difference, dictGet, narrowEarlyDict]
  norm_num

/-- C9: for every analysis response (well-formed or not), whenever
`analyze_creativity_difference` returns a value, the value under its
`influential_categories` key is a list whose members are all strings drawn
from the fixed category vocabulary `STORY_EVALUATION_CATEGORIES` (in both
variants); names outside the vocabulary are filtered out. -/
theorem C9_influential_names_in_vocabulary :
    (∀ (loads : String → Option PyJson) (resp : String)
        (st : Narrow.EvaluationResult) (allr : List (String × Narrow.EvaluationResult))
        (d : List (String × PyJson)) (n : Nat) (v : PyJson),
      Narrow.analyze_creativity_difference loads resp st allr = .ok (d, n) →
      dictGet d "influential_categories" = some v →
      influentialValid Narrow.STORY_EVALUATION_CATEGORIES v = true) ∧
    (∀ (loads : String → Option PyJson) (resp : String)
        (st : Wide.EvaluationResult) (allr : List (String × Wide.EvaluationResult))
        (d : List (String × PyJson)) (n : Nat) (v : PyJson),
      Wide.analyze_creativity_difference loads resp st allr = .ok (d, n) →
      dictGet d "influential_categories" = some v →
      influentialValid Wide.STORY_EVALUATION_CATEGORIES v = true) :=
  ⟨fun _ _ _ _ _ _ _ h hv => analyze_influential_narrow h hv,
   fun _ _ _ _ _ _ _ h hv => analyze_influential_wide h hv⟩

/-- Witness for C9 at a concrete run of the narrow analyzer. -/
theorem C9_witness :
    influentialValid Narrow.STORY_EVALUATION_CATEGORIES (PyJson.arr []) = true :=
  C9_influential_names_in_vocabulary.1 loadsNone "x"
    (Narrow.EvaluationResult.mk "Creativity" 5 "") [] narrowEarlyDict 0 (PyJson.arr [])
    narrow_early_run rfl

theorem analyze_fallback_narrow (loads : String → Option PyJson) (resp : String)
    (st : Narrow.EvaluationResult) (allr : List (String × Narrow.EvaluationResult))
    (h1 : ¬(|st.score - ((dictGet allr "Creativity").getD st).score| < 1 / 10))
    (h2 : loads resp = none) :
    (Narrow.analyze_creativity_difference loads resp st allr).map
        (fun r => (dictGet r.1 "influential_categories", dictGet r.1 "difference",
          dictGet r.1 "analysis", r.2)) =
      .ok (some (PyJson.arr []),
        some (PyJson.num (round1 |st.score - ((dictGet allr "Creativity").getD st).score|)),
        some (PyJson.str resp), 1) := by
  simp only [Narrow.analyze_creativity_difference]
  rw [if_neg h1, h2]
  rfl

theorem analyze_fallback_wide (loads : String → Option PyJson) (resp : String)
    (st : Wide.EvaluationResult) (allr : List (String × Wide.EvaluationResult))
    (h1 : ¬(|st.score - ((dictGet allr "Creativity").getD st).score| < 1 / 10))
    (h2 : loads resp = none) :
    (Wide.analyze_creativity_difference loads resp st allr).map
        (fun r => (dictGet r.1 "influential_categories", dictGet r.1 "difference",
          dictGet r.1 "analysis", r.2)) =
      .ok (some (PyJson.arr []),
        some (PyJson.num (round1 |st.score - ((dictGet allr "Creativity").getD st).score|)),
        none, 1) := by
  simp only [Wide.analyze_creativity_difference]
  rw [if_neg h1, h2]
  rfl

theorem wide_gap_example :
    ¬(|(Wide.EvaluationResult.mk "Creativity" 10).score -
        ((dictGet [("Creativity", Wide.EvaluationResult.mk "Creativity" 5)]
          "Creativity").getD (Wide.EvaluationResult.mk "Creativity" 10)).score| < 1 / 10) := by
  simp [dictGet]
  norm_num

/-- C8 counterexample: in the wide variant, a malformed (non-JSON) analysis
response yields a result dict with no `analysis` key at all (the lookup gives
`none`), so the raw response text is not preserved as a fallback
explanation/analysis field there, contrary to the claim. -/
theorem C8_counterexample :
    (Wide.analyze_creativity_difference loadsNone "model failure text"
          (Wide.EvaluationResult.mk "Creativity" 10)
          [("Creativity", Wide.EvaluationResult.mk "Creativity" 5)]).map
        (fun r => (dictGet r.1 "influential_categories", dictGet r.1 "difference",
          dictGet r.1 "analysis", r.2)) =
      .ok (some (PyJson.arr []),
        some (PyJson.num (round1 |(Wide.EvaluationResult.mk "Creativity" 10).score -
          ((dictGet [("Creativity", Wide.EvaluationResult.mk "Creativity" 5)]
            "Creativity").getD (Wide.EvaluationResult.mk "Creativity" 10)).score|)),
        none, 1) ∧
      (none : Option PyJson) ≠ some (PyJson.str "model failure text") :=
  ⟨analyze_fallback_wide loadsNone "model failure text"
      (Wide.EvaluationResult.mk "Creativity" 10)
      [("Creativity", Wide.EvaluationResult.mk "Creativity" 5)] wide_gap_example rfl,
   by simp⟩

/-- C8 (amended): for a malformed (non-JSON) analysis response, when an
analysis call is made (the scores differ by at least the 0.1 tolerance),
`analyze_creativity_difference` does not fail: it returns the rounded
absolute score difference and an empty influential-category list after one
chat call; the narrow variant preserves the raw response text under the
`analysis` key, while the wide variant returns a dict with no analysis field
at all (the raw text is discarded). -/
theorem C8_malformed_json_fallback :
    (∀ (loads : String → Option PyJson) (resp : String)
        (st : Narrow.EvaluationResult) (allr : List (String × Narrow.EvaluationResult)),
      ¬(|st.score - ((dictGet allr "Creativity").getD st).score| < 1 / 10) →
      loads resp = none →
      (Narrow.analyze_creativity_difference loads resp st allr).map
          (fun r => (dictGet r.1 "influential_categories", dictGet r.1 "difference",
            dictGet r.1 "analysis", r.2)) =
        .ok (some (PyJson.arr []),
          some (PyJson.num (round1 |st.score - ((dictGet allr "Creativity").getD st).score|)),
          some (PyJson.str resp), 1)) ∧
    (∀ (loads : String → Option PyJson) (resp : String)
        (st : Wide.EvaluationResult) (allr : List (String × Wide.EvaluationResult)),
      ¬(|st.score - ((dictGet allr "Creativity").getD st).score| < 1 / 10) →
      loads resp = none →
      (Wide.analyze_creativity_difference loads resp st allr).map
          (fun r => (dictGet r.1 "influential_categories", dictGet r.1 "difference",
            dictGet r.1 "analysis", r.2)) =
        .ok (some (PyJson.arr []),
          some (PyJson.num (round1 |st.score - ((dictGet allr "Creativity").getD st).score|)),
          none, 1)) :=
  ⟨fun loads resp st allr h1 h2 => analyze_fallback_narrow loads resp st allr h1 h2,
   fun loads resp st allr h1 h2 => analyze_fallback_wide loads resp st allr h1 h2⟩

theorem narrow_gap_example :
    ¬(|(Narrow.EvaluationResult.mk "Creativity" 10 "").score -
        ((dictGet [("Creativity", Narrow.EvaluationResult.mk "Creativity" 5 "old")]
          "Creativity").getD (Narrow.EvaluationResult.mk "Creativity" 10 "")).score| < 1 / 10) := by
  simp [dictGet]
  norm_num

/-- Witness for C8 at a concrete input: scores 10 and 5 with a non-JSON
analysis response, in the narrow variant. -/
theorem C8_witness :
    (Narrow.analyze_creativity_difference loadsNone "broken"
          (Narrow.EvaluationResult.mk "Creativity" 10 "")
          [("Creativity", Narrow.EvaluationResult.mk "Creativity" 5 "old")]).map
        (fun r => (dictGet r.1 "influential_categories", dictGet r.1 "difference",
          dictGet r.1 "analysis", r.2)) =
      .ok (some (PyJson.arr []),
        some (PyJson.num (round1 |(Narrow.EvaluationResult.mk "Creativity" 10 "").score -
          ((dictGet [("Creativity", Narrow.EvaluationResult.mk "Creativity" 5 "old")]
            "Creativity").getD (Narrow.EvaluationResult.mk "Creativity" 10 "")).score|)),
        some (PyJson.str "broken"), 1) :=
  C8_malformed_json_fallback.1 loadsNone "broken"
    (Narrow.EvaluationResult.mk "Creativity" 10 "")
    [("Creativity", Narrow.EvaluationResult.mk "Creativity" 5 "old")]
    narrow_gap_example rfl

theorem parse_response_obj_score_expl (loads : String → Option PyJson) (response : String)
    (s : ℚ) (e : String) (h0 : pystrip response ≠ "")
    (h1 : loads (pystrip response) =
      some (PyJson.obj [("score", PyJson.num s), ("explanation", PyJson.str e)])) :
    Narrow.parse_response loads response = .ok (some s, pystrip e) := by
  simp only [Narrow.parse_response]
  rw [if_neg h0, h1]
  rfl

/-- C2 counterexample: on the JSON object with score 7.5 and explanation
" clear " (padded with spaces), parse returns the stripped explanation
"clear", not the explanation unchanged. -/
theorem C2_counterexample :
    Narrow.parse_response loadsClear "\x7b\"score\": 7.5, \"explanation\": \" clear \"\x7d" =
        .ok (some (15 / 2), "clear") ∧
      "clear" ≠ " clear " :=
  ⟨rfl, by decide⟩

/-- C2 (amended): for every valid JSON object input of the form
score-and-explanation with the score a number inside the valid interval,
parse returns the score coerced to float together with the explanation
stripped of leading and trailing whitespace (not unchanged). -/
theorem C2_json_score_and_stripped_explanation :
    ∀ (loads : String → Option PyJson) (response : String) (s : ℚ) (e : String),
      pystrip response ≠ "" →
      loads (pystrip response) =
        some (PyJson.obj [("score", PyJson.num s), ("explanation", PyJson.str e)]) →
      1 ≤ s → s ≤ 10 →
      Narrow.parse_response loads response = .ok (some s, pystrip e) :=
  fun loads response s e h0 h1 _ _ => parse_response_obj_score_expl loads response s e h0 h1

theorem half15_ge_one : (1 : ℚ) ≤ 15 / 2 := by norm_num

theorem half15_le_ten : (15 : ℚ) / 2 ≤ 10 := by norm_num

/-- Witness for C2 at the concrete score 7.5 and padded explanation. -/
theorem C2_witness :
    Narrow.parse_response loadsClear "\x7b\"score\": 7.5, \"explanation\": \" clear \"\x7d" =
      .ok (some (15 / 2), pystrip " clear ") :=
  C2_json_score_and_stripped_explanation loadsClear
    "\x7b\"score\": 7.5, \"explanation\": \" clear \"\x7d" (15 / 2) " clear "
    (by decide) rfl half15_ge_one half15_le_ten

theorem dictGet_none_any_false {α : Type} {kvs : List (String × α)} {k : String}
    (h : dictGet kvs k = none) : kvs.any (fun p => p.1 == k) = false := by
  simp only [dictGet, Option.map_eq_none'] at h
  rw [List.find?_eq_none] at h
  rw [List.any_eq_false]
  exact h

theorem parse_response_obj_no_score (loads : String → Option PyJson) (response : String)
    (kvs : List (String × PyJson)) (h0 : pystrip response ≠ "")
    (h1 : loads (pystrip response) = some (PyJson.obj kvs))
    (h2 : dictGet kvs "score" = none) :
    Narrow.parse_response loads response =
      .ok (none, pystrip (pyStr ((dictGet kvs "explanation").getD (PyJson.str "")))) := by
  simp only [Narrow.parse_response]
  rw [if_neg h0, h1]
  simp only [Narrow.scoreFromPayload, pyIn]
  rw [dictGet_none_any_false h2]
  rfl

theorem parse_response_scan_on_decode_error (loads : String → Option PyJson)
    (response : String) {pre m post : List Char} (h0 : pystrip response ≠ "")
    (h1 : loads (pystrip response) = none)
    (h2 : regexSearch tryMatchN (pystrip response) = some (pre, m, post)) :
    Narrow.parse_response loads response =
      .ok (some (ratOfMatch m),
        pystrip (String.mk (removeFirstList m (pystrip response).data))) := by
  simp only [Narrow.parse_response]
  rw [if_neg h0, h1, h2]

/-- C3 counterexample: on the valid JSON object that lacks a `score` key but
whose text contains the in-range number 8, parse returns an absent score
(the numeric scan is not performed), even though the scan would have matched
the substring "8" with value 8. -/
theorem C3_counterexample :
    Narrow.parse_response loadsNoScore "\x7b\"explanation\": \"8 out of 10\"\x7d" =
        .ok (none, "8 out of 10") ∧
      (regexSearch tryMatchN "\x7b\"explanation\": \"8 out of 10\"\x7d").map
          (fun p => p.2.1) = some ['8'] ∧
      ratOfMatch ['8'] = 8 := by
  refine ⟨rfl, by decide, ?_⟩
  calc ratOfMatch ['8'] = ((8 : ℕ) : ℚ) := rfl
    _ = 8 := by norm_num

/-- C3 (amended): the numeric scan is performed only when JSON parsing fails
(`json.JSONDecodeError`); for a valid JSON object without a `score` key,
parse returns an absent score and the object-derived explanation directly,
without scanning the text.  When JSON parsing does fail and the pattern
matches, the first match becomes the score. -/
theorem C3_scan_only_on_json_failure :
    (∀ (loads : String → Option PyJson) (response : String)
        (kvs : List (String × PyJson)),
      pystrip response ≠ "" →
      loads (pystrip response) = some (PyJson.obj kvs) →
      dictGet kvs "score" = none →
      Narrow.parse_response loads response =
        .ok (none, pystrip (pyStr ((dictGet kvs "explanation").getD (PyJson.str ""))))) ∧
    (∀ (loads : String → Option PyJson) (response : String) (pre m post : List Char),
      pystrip response ≠ "" →
      loads (pystrip response) = none →
      regexSearch tryMatchN (pystrip response) = some (pre, m, post) →
      Narrow.parse_response loads response =
        .ok (some (ratOfMatch m),
          pystrip (String.mk (removeFirstList m (pystrip response).data)))) :=
  ⟨fun loads response kvs h0 h1 h2 => parse_response_obj_no_score loads response kvs h0 h1 h2,
   fun loads response pre m post h0 h1 h2 =>
     parse_response_scan_on_decode_error loads response h0 h1 h2⟩

/-- Witness for C3 at the concrete score-less JSON object. -/
theorem C3_witness :
    Narrow.parse_response loadsNoScore "\x7b\"explanation\": \"8 out of 10\"\x7d" =
      .ok (none, pystrip (pyStr ((dictGet [("explanation", PyJson.str "8 out of 10")]
        "explanation").getD (PyJson.str "")))) :=
  C3_scan_only_on_json_failure.1 loadsNoScore "\x7b\"explanation\": \"8 out of 10\"\x7d"
    [("explanation", PyJson.str "8 out of 10")] (by decide) rfl rfl

/-- C4: `parse_response` is not total.  On the input "8" (a valid JSON
document whose value is a number, not an object) the membership test
`"score" in payload` raises an uncaught `TypeError`, and on a JSON object
whose score is null the coercion `float(None)` raises an uncaught
`TypeError`; in both cases the function raises instead of returning an
absent score. -/
theorem C4_parse_raises_on_nonobject_json :
    Narrow.parse_response loadsEight "8" = .error .typeError ∧
      Narrow.parse_response loadsNullScore "\x7b\"score\": null\x7d" = .error .typeError :=
  ⟨rfl, rfl⟩

/-- C1 counterexample: with every response unparseable ("no score here"
contains neither JSON nor digits), the narrow ([1,10]) evaluator stores 0.0
for every category, not the interval minimum 1.0 claimed for this variant. -/
theorem C1_counterexample :
    (Narrow.evaluate_all_categories loadsNone (fun _ => "no score here")).map
        (fun res => res.map (fun p => p.2.score)) = .ok (List.replicate 15 (0 : ℚ)) ∧
      (0 : ℚ) ≠ 1 :=
  ⟨rfl, by norm_num⟩

/-- C1 (amended): a parse failure for a single category does not abort the
evaluation: both variants substitute 0.0 for that category's score and
continue, producing one entry per category plus the Creativity entry.  The
substituted 0.0 is the interval minimum only in the wide [0,20] variant; in
the narrow [1,10] variant it lies below the interval minimum 1.0. -/
theorem C1_parse_failure_defaults_to_zero :
    (∀ (loads : String → Option PyJson) (responses : Nat → String)
        (res : List (String × Narrow.EvaluationResult)) (j : Nat) (c e : String),
      Narrow.evaluate_all_categories loads responses = .ok res →
      Narrow.STORY_EVALUATION_CATEGORIES.get? j = some c →
      Narrow.parse_response loads (responses j) = .ok (none, e) →
      res.map Prod.fst = Narrow.STORY_EVALUATION_CATEGORIES ++ ["Creativity"] ∧
        res.get? j = some (c, ⟨c, 0, e⟩)) ∧
    (∀ (loads : String → Option PyJson) (responses : Nat → String)
        (res : List (String × Wide.EvaluationResult)) (j : Nat) (c : String),
      Wide.evaluate_all_categories loads responses = .ok res →
      loads (Wide.stripCodeFences (responses 0)) = none →
      Wide.STORY_EVALUATION_CATEGORIES.get? j = some c →
      Wide.parse_response loads (responses (1 + j)) = .ok none →
      res.map Prod.fst = Wide.STORY_EVALUATION_CATEGORIES ++ ["Creativity"] ∧
        res.get? j = some (c, ⟨c, 0⟩)) := by
  constructor
  · intro loads responses res j c e h hj hp
    simp only [Narrow.evaluate_all_categories] at h
    cases hcats : Narrow.evalCats loads responses Narrow.STORY_EVALUATION_CATEGORIES 0 with
    | error er => rw [hcats] at h; exact absurd h (by simp)
    | ok results =>
      rw [hcats] at h
      cases hcre : Narrow.parse_response loads
          (responses Narrow.STORY_EVALUATION_CATEGORIES.length) with
      | error er => rw [hcre] at h; exact absurd h (by simp)
      | ok se =>
        rw [hcre] at h
        obtain ⟨cs, cexpl⟩ := se
        injection h with h2
        subst h2
        obtain ⟨hmap, hidx⟩ :=
          Narrow_evalCats_spec loads responses Narrow.STORY_EVALUATION_CATEGORIES 0 results hcats
        have hlen : results.length = Narrow.STORY_EVALUATION_CATEGORIES.length := by
          rw [← hmap, List.length_map]
        have hjlt : j < Narrow.STORY_EVALUATION_CATEGORIES.length := by
          rcases List.get?_eq_some.mp hj with ⟨hlt, _⟩
          exact hlt
        constructor
        · rw [List.map_append, hmap]
          rfl
        · obtain ⟨s, e2, hp2, hres2⟩ := hidx j c hj
          rw [Nat.zero_add] at hp2
          rw [hp2] at hp
          injection hp with hp3
          injection hp3 with hps hpe
          subst hps
          subst hpe
          rw [List.get?_append (by rw [hlen]; exact hjlt)]
          exact hres2
  · intro loads responses res j c h hl hj hp
    simp only [Wide.evaluate_all_categories] at h
    rw [hl] at h
    dsimp only at h
    cases hcats : Wide.evalCatsFallback loads responses Wide.STORY_EVALUATION_CATEGORIES 1 with
    | error er => rw [hcats] at h; exact absurd h (by simp)
    | ok rs =>
      rw [hcats] at h
      dsimp only at h
      cases hcre : Wide.parse_response loads
          (responses (1 + Wide.STORY_EVALUATION_CATEGORIES.length)) with
      | error er => rw [hcre] at h; exact absurd h (by simp)
      | ok cs =>
        rw [hcre] at h
        injection h with h2
        subst h2
        obtain ⟨hmap, _, hidx⟩ :=
          Wide_evalCatsFallback_spec loads responses Wide.STORY_EVALUATION_CATEGORIES 1 rs hcats
        have hlen : rs.length = Wide.STORY_EVALUATION_CATEGORIES.length := by
          rw [← hmap, List.length_map]
        have hjlt : j < Wide.STORY_EVALUATION_CATEGORIES.length := by
          rcases List.get?_eq_some.mp hj with ⟨hlt, _⟩
          exact hlt
        constructor
        · rw [List.map_append, hmap]
          rfl
        · obtain ⟨s, hp2, hres2⟩ := hidx j c hj
          rw [hp2] at hp
          injection hp with hp3
          subst hp3
          rw [List.get?_append (by rw [hlen]; exact hjlt)]
          exact hres2

/-- Witness for C1 at the concrete all-unparseable narrow run. -/
theorem C1_witness :
    narrowAllZero.map Prod.fst = Narrow.STORY_EVALUATION_CATEGORIES ++ ["Creativity"] ∧
      narrowAllZero.get? 0 = some ("Grammar, spelling, and punctuation quality",
        ⟨"Grammar, spelling, and punctuation quality", 0, "no score here"⟩) :=
  C1_parse_failure_defaults_to_zero.1 loadsNone (fun _ => "no score here") narrowAllZero 0
    "Grammar, spelling, and punctuation quality" "no score here" rfl rfl rfl

/-- C5 counterexample: the narrow ([1,10]) evaluator performs no clamping:
with every response the JSON object score-50, every stored score is 50,
outside the claimed interval [1,10]. -/
theorem C5_counterexample :
    (Narrow.evaluate_all_categories loadsFifty (fun _ => "\x7b\"score\": 50\x7d")).map
        (fun res => res.map (fun p => p.2.score)) = .ok (List.replicate 15 (50 : ℚ)) ∧
      ¬((50 : ℚ) ≤ 10) :=
  ⟨rfl, by norm_num⟩

/-- C5 (amended): only the wide [0,20] variant clamps: every score stored by
its evaluator lies within [0,20].  The narrow [1,10] variant stores parsed
scores unclamped, and out-of-interval values such as 50 are recorded as is. -/
theorem C5_wide_scores_clamped :
    ∀ (loads : String → Option PyJson) (responses : Nat → String)
      (res : List (String × Wide.EvaluationResult)) (p : String × Wide.EvaluationResult),
      Wide.evaluate_all_categories loads responses = .ok res →
      p ∈ res → 0 ≤ p.2.score ∧ p.2.score ≤ 20 := by
  intro loads responses res p h hmem
  have hcre0 : ∀ (cs : Option ℚ),
      0 ≤ (match cs with | none => (0 : ℚ) | some q => Wide.clamp q) ∧
        (match cs with | none => (0 : ℚ) | some q => Wide.clamp q) ≤ 20 := by
    intro cs
    cases cs with
    | none => exact ⟨le_refl 0, by norm_num⟩
    | some q => exact Wide_clamp_bounds q
  simp only [Wide.evaluate_all_categories] at h
  cases hl : loads (Wide.stripCodeFences (responses 0)) with
  | some payload =>
    rw [hl] at h
    dsimp only at h
    cases hg : pyGet payload "scores" (PyJson.obj []) with
    | error er => rw [hg] at h; exact absurd h (by simp)
    | ok scoresJ =>
      rw [hg] at h
      dsimp only at h
      cases hi : pyItems scoresJ with
      | error er => rw [hi] at h; exact absurd h (by simp)
      | ok scores =>
        rw [hi] at h
        dsimp only at h
        cases hcre : Wide.parse_response loads (responses 1) with
        | error er => rw [hcre] at h; exact absurd h (by simp)
        | ok cs =>
          rw [hcre] at h
          injection h with h2
          subst h2
          rcases List.mem_append.mp hmem with hmem | hmem
          · rw [List.mem_map] at hmem
            obtain ⟨c, _, hpc⟩ := hmem
            subst hpc
            exact Wide_scoreForCategory_bounds scores c
          · rw [List.mem_singleton] at hmem
            subst hmem
            exact hcre0 cs
  | none =>
    rw [hl] at h
    dsimp only at h
    cases hcats : Wide.evalCatsFallback loads responses Wide.STORY_EVALUATION_CATEGORIES 1 with
    | error er => rw [hcats] at h; exact absurd h (by simp)
    | ok rs =>
      rw [hcats] at h
      dsimp only at h
      cases hcre : Wide.parse_response loads
          (responses (1 + Wide.STORY_EVALUATION_CATEGORIES.length)) with
      | error er => rw [hcre] at h; exact absurd h (by simp)
      | ok cs =>
        rw [hcre] at h
        injection h with h2
        subst h2
        obtain ⟨_, hbnd, _⟩ :=
          Wide_evalCatsFallback_spec loads responses Wide.STORY_EVALUATION_CATEGORIES 1 rs hcats
        rcases List.mem_append.mp hmem with hmem | hmem
        · exact hbnd p hmem
        · rw [List.mem_singleton] at hmem
          subst hmem
          exact hcre0 cs

/-- Witness for C5 at the concrete run with digit-free responses. -/
theorem C5_witness :
    0 ≤ (("Creativity", Wide.EvaluationResult.mk "Creativity" 0)).2.score ∧
      (("Creativity", Wide.EvaluationResult.mk "Creativity" 0)).2.score ≤ 20 :=
  C5_wide_scores_clamped loadsNone (fun _ => "good") wideAllZero
    ("Creativity", Wide.EvaluationResult.mk "Creativity" 0) rfl
    (List.mem_append_right _ (List.mem_singleton_self _))

theorem ratOfMatch_ten_seven : ratOfMatch ['1', '0', '.', '7'] = 107 / 10 := by
  calc ratOfMatch ['1', '0', '.', '7'] = mkRat ((107 : ℕ) : ℤ) 10 := rfl
    _ = 107 / 10 := by
      rw [Rat.mkRat_eq_divInt, Rat.divInt_eq_div]
      norm_num

/-- C6 counterexample: the narrow pattern matches "10.7" in
"about 10.7 overall", whose value 10.7 exceeds the claimed upper bound 10.0,
and the narrow parse returns that out-of-interval value as the score. -/
theorem C6_counterexample :
    regexSearch tryMatchN "about 10.7 overall" =
        some ("about ".data, ['1', '0', '.', '7'], " overall".data) ∧
      ratOfMatch ['1', '0', '.', '7'] = 107 / 10 ∧
      ¬(ratOfMatch ['1', '0', '.', '7'] ≤ 10) ∧
      Narrow.parse_response loadsNone "about 10.7 overall" =
        .ok (some (ratOfMatch ['1', '0', '.', '7']), "about  overall") := by
  refine ⟨by decide, ratOfMatch_ten_seven, ?_, rfl⟩
  rw [ratOfMatch_ten_seven]
  norm_num

/-- C6 (amended): every match of the narrow fallback pattern has a value in
[1, 10.9] (not [1, 10]: the alternative for 10 followed by one decimal digit
admits 10.1 through 10.9); every match of the wide pattern has a value in
[0, 20.9]; every match is a substring of the input whose neighbouring
characters are not digits (so a maximal digit run like "100" yields no
match on "10"); and on the input "100" neither pattern matches at all. -/
theorem C6_pattern_value_and_boundary :
    (∀ (s : String) (pre m post : List Char),
      regexSearch tryMatchN s = some (pre, m, post) →
      1 ≤ ratOfMatch m ∧ ratOfMatch m ≤ 109 / 10) ∧
    (∀ (s : String) (pre m post : List Char),
      regexSearch tryMatchN s = some (pre, m, post) →
      s.data = pre ++ m ++ post ∧
        (∀ c, pre.getLast? = some c → isDigitChar c = false) ∧
        noDigitAhead post = true) ∧
    regexSearch tryMatchN "100" = none ∧
    (∀ (s : String) (pre m post : List Char),
      regexSearch tryMatchW s = some (pre, m, post) →
      0 ≤ ratOfMatch m ∧ ratOfMatch m ≤ 209 / 10) ∧
    regexSearch tryMatchW "100" = none := by
  refine ⟨?_, ?_, by decide, ?_, by decide⟩
  · intro s pre m post h
    obtain ⟨_, _, cs, hcs⟩ :=
      regexSearch_sound (fun cs m2 r2 hc => (tryMatchN_sound hc).1) s h
    exact ⟨(tryMatchN_sound hcs).2.2.1, (tryMatchN_sound hcs).2.2.2⟩
  · intro s pre m post h
    obtain ⟨hdec, hpre, cs, hcs⟩ :=
      regexSearch_sound (fun cs m2 r2 hc => (tryMatchN_sound hc).1) s h
    exact ⟨hdec, hpre, (tryMatchN_sound hcs).2.1⟩
  · intro s pre m post h
    obtain ⟨_, _, cs, hcs⟩ :=
      regexSearch_sound (fun cs m2 r2 hc => (tryMatchW_sound hc).1) s h
    exact ⟨(tryMatchW_sound hcs).2.2.1, (tryMatchW_sound hcs).2.2.2⟩

/-- Witness for C6 at a concrete match of the narrow pattern. -/
theorem C6_witness : 1 ≤ ratOfMatch ['7'] ∧ ratOfMatch ['7'] ≤ 109 / 10 :=
  C6_pattern_value_and_boundary.1 "7" [] ['7'] [] (by decide)
